import Mathlib

/-!
Shallow embedding of the Schema-Driven Validation Engine of the
`fastapi-pydantic` AI Output Validation Service.

The definitions below are translated from the repository source:
  - `app/validation.py`  : name-content heuristic, dynamic model compilation,
    structural validation runner, heuristic semantic validator, and the
    semantic validation orchestrator;
  - `app/main.py`        : the `/validate` endpoint's result aggregation;
  - `app/ai_agent.py`    : `enhance_validation` and its escalation rule;
  - `app/schemas/models.py` : result/record shapes and validation levels.

Python `dict`s are modelled as association lists (insertion ordered, which is
exactly Python's dict iteration order); Python floats are modelled as `ℚ`;
machine-level exceptions that a function can raise on ill-typed inputs are
modelled with `Option`/`Except`.  External libraries (Python's `re` module and
the `email-validator` backing pydantic's `EmailStr`) are modelled as explicit
function parameters, so every theorem quantifying over them holds for any
behaviour of those libraries.
-/

namespace AIOVS

/-- JSON-like runtime value (a Python object crossing the API boundary). -/
inductive JValue where
  | str (s : String)
  | int (n : ℤ)
  | num (q : ℚ)
  | bool (b : Bool)
  | arr (elems : List JValue)
  | obj (fields : List (String × JValue))
  | null

/-- A flat record (Python `Dict[str, Any]`), insertion ordered. -/
abbrev Record := List (String × JValue)

/-- Python truthiness (`not value` tests) for the values we model. -/
def pyFalsy : JValue → Bool
  | .str s => s = ""
  | .int n => n = 0
  | .num q => q = 0
  | .bool b => !b
  | .arr l => l.isEmpty
  | .obj l => l.isEmpty
  | .null => true

/-- The whitespace characters stripped by Python's `str.strip()` (ASCII part). -/
def isPySpace (c : Char) : Bool :=
  c = ' ' || c = '\t' || c = '\n' || c = '\r' || c = '\x0b' || c = '\x0c'

/-- Python `str.strip()` on a character list. -/
def stripChars (l : List Char) : List Char :=
  ((l.dropWhile isPySpace).reverse.dropWhile isPySpace).reverse

/-- `isPrefixList pat l` decides whether `pat` is a prefix of `l`. -/
def isPrefixList : List Char → List Char → Bool
  | [], _ => true
  | _ :: _, [] => false
  | p :: ps, c :: cs => p == c && isPrefixList ps cs

/-- Python's `pat in s` substring containment, on character lists. -/
def containsSub (pat : List Char) : List Char → Bool
  | [] => isPrefixList pat []
  | c :: cs => isPrefixList pat (c :: cs) || containsSub pat cs

/-- Python `s.split(sep)` on character lists (for one-character
separators). -/
def splitOnChar (sep : Char) : List Char → List (List Char)
  | [] => [[]]
  | c :: cs =>
    if c == sep then [] :: splitOnChar sep cs
    else match splitOnChar sep cs with
      | h :: t => (c :: h) :: t
      | [] => [[c]]

/-- Numeric value of a digit string. -/
def digitsToNat (l : List Char) : ℕ :=
  l.foldl (fun acc c => 10 * acc + (c.toNat - 48)) 0

/-- Digit run to a number, `none` when empty or not all digits. -/
def parseDigits (l : List Char) : Option ℕ :=
  if !l.isEmpty && l.all Char.isDigit then some (digitsToNat l) else none

/-- Split a list at the first occurrence of `sep`, when there is one. -/
def splitFirst (sep : Char) : List Char → Option (List Char × List Char)
  | [] => none
  | c :: cs =>
    if c == sep then some ([], cs)
    else match splitFirst sep cs with
      | some (l, r) => some (c :: l, r)
      | none => none

/-- Error kinds raised by `validate_name_content` (the `PydanticCustomError`
type tokens of `app/validation.py`). -/
inductive NameError where
  | name_too_short
  | invalid_name_characters
  | keyboard_pattern
  | repeating_characters
  | random_characters
  deriving Repr, DecidableEq

/-- The `PydanticCustomError` type token of each name-validation failure. -/
def nameErrorType : NameError → String
  | .name_too_short => "name_too_short"
  | .invalid_name_characters => "invalid_name_characters"
  | .keyboard_pattern => "keyboard_pattern"
  | .repeating_characters => "repeating_characters"
  | .random_characters => "random_characters"

/-- The `message` carried by each `PydanticCustomError` in
`validate_name_content`. -/
def nameErrorMessage : NameError → String
  | .name_too_short => "Name is too short"
  | .invalid_name_characters => "Name contains invalid characters"
  | .keyboard_pattern => "Invalid name: appears to contain keyboard pattern"
  | .repeating_characters => "Invalid name: contains excessive repeating characters"
  | .random_characters => "Invalid name: appears to contain random characters or keyboard pattern"

/-- The keyboard-walk substrings checked by `validate_name_content`
(`app/validation.py` lines 48-51), in source order. -/
def keyboard_patterns : List String :=
  ["qwerty", "asdfgh", "zxcvbn", "yuiop", "hjkl", "nm",
   "azerty", "qsdfgh", "wxcvbn"]

/-- Membership in the character class `[a-zA-Z\s\-'À-ÿ]` of the
name regex (`app/validation.py` line 41).  Code 39 is the apostrophe. -/
def isNameChar (c : Char) : Bool :=
  c.isAlpha || isPySpace c || c = '-' || c.toNat == 39 ||
    (0xC0 ≤ c.toNat && c.toNat ≤ 0xFF)

/-- `re.search(r'(.)\1{3,}', value)`: some character repeated at least four
times consecutively. -/
def hasRepeat4 : List Char → Bool
  | [] => false
  | a :: rest => (3 ≤ rest.length && (rest.take 3).all (· == a)) || hasRepeat4 rest

/-- Lowercase ASCII consonants, the class `[bcdfghjklmnpqrstvwxyz]` of
`app/validation.py` line 69 (the search runs on the lowercased value). -/
def isConsonant (c : Char) : Bool :=
  c ∈ (['b','c','d','f','g','h','j','k','l','m','n',
        'p','q','r','s','t','v','w','x','y','z'] : List Char)

/-- Helper for the 5-consonants-in-a-row search: `k` is the length of the
current consonant run. -/
def consonantRunGo : List Char → Nat → Bool
  | [], _ => false
  | c :: rest, k =>
    if isConsonant c then (5 ≤ k + 1) || consonantRunGo rest (k + 1)
    else consonantRunGo rest 0

/-- `re.search(f'{consonants}{5,}', lower_value)`: five or more consecutive
consonants somewhere in the (lowercased) value. -/
def hasConsonantRun5 (l : List Char) : Bool := consonantRunGo l 0

/-- `validate_name_content` (`app/validation.py` lines 21-76): the
"plausible human name" content heuristic.  Checks run in source order; the
first failing check raises its `PydanticCustomError`. -/
def validate_name_content (value : String) : Except NameError String :=
  if value = "" || (stripChars value.data).length < 2 then
    .error .name_too_short
  else if !(value.data.all isNameChar) then
    .error .invalid_name_characters
  else
    let lower_value := value.data.map Char.toLower
    if keyboard_patterns.any (fun p => containsSub p.data lower_value) then
      .error .keyboard_pattern
    else if hasRepeat4 value.data then
      .error .repeating_characters
    else if hasConsonantRun5 lower_value then
      .error .random_characters
    else
      .ok value

/-! ### Schema compiler (`create_model_from_schema`, `app/validation.py` 93-288)

A schema field definition is a raw JSON dict; keys that may be absent are
`Option`s.  (The `SchemaField`-object branch of the source — which reads
`gt`/`lt` and has no `format` — is not exercised by any claim; only the
raw-dict branch is embedded, including its `get("gt") or get("min")`
truthiness quirk.)  The `items` field keeps only the item dict's `"type"`
key: an absent `items`, a non-dict `items` and an unrecognized item type all
compile to the same heterogeneous list type in the source. -/

structure FieldDef where
  type : Option String := none
  required : Bool := false
  format : Option String := none
  pattern : Option String := none
  min_length : Option Nat := none
  max_length : Option Nat := none
  gt : Option ℚ := none
  lt : Option ℚ := none
  min : Option ℚ := none
  max : Option ℚ := none
  items : Option String := none
  deriving Repr, DecidableEq

/-- A schema: mapping of field name to field definition. -/
abbrev Schema := List (String × FieldDef)

/-- Python `a or b` over optional numbers (used for
`field_def.get("gt", None) or field_def.get("min", None)`): a present `0` is
falsy and falls through to `b`. -/
def pyOrQ : Option ℚ → Option ℚ → Option ℚ
  | some x, b => if x = 0 then b else some x
  | none, b => b

/-- Python `int()` truncation toward zero on a rational. -/
def pyInt (q : ℚ) : ℤ := if 0 ≤ q then ⌊q⌋ else ⌈q⌉

/-- Item type of an array field. -/
inductive ItemKind where
  | str | num | int | bool | anyv
  deriving Repr, DecidableEq

/-- The base type a field compiles to, together with its numeric bounds. -/
inductive BaseKind where
  | strPlain
  | strEmail
  | strName
  | num (gt lt : Option ℚ)
  | int (gt lt : Option ℤ)
  | bool
  | arr (item : ItemKind)
  | objAny
  | anyv
  deriving Repr, DecidableEq

/-- One compiled field of the dynamic pydantic model: base type plus the
synthesized side-constraint checks. -/
structure CompiledField where
  base : BaseKind
  required : Bool
  minLength : Option Nat := none
  maxLength : Option Nat := none
  dateCheck : Bool := false
  patternCheck : Option String := none
  deriving Repr, DecidableEq

/-- The compiled dynamic model: fields in schema order. -/
abbrev CompiledModel := List (String × CompiledField)

/-- The name-field vocabulary of `create_model_from_schema`
(`app/validation.py` lines 147-150); the comparison lowercases the field
name. -/
def isNameFieldName (field_name : String) : Bool :=
  (⟨field_name.data.map Char.toLower⟩ : String) ∈
    (["name", "customer_name", "full_name", "first_name",
      "last_name", "contact_name", "person_name"] : List String)

/-- Item kind from the `items` definition's `"type"` value. -/
def itemKindOf : Option String → ItemKind
  | some "string" => .str
  | some "number" => .num
  | some "integer" => .int
  | some "boolean" => .bool
  | _ => .anyv

/-- Compile one field definition (`app/validation.py` lines 112-275).
Mirrors the source branching: `string` dispatches on `format` and the
name-field vocabulary and attaches length/pattern/date side-checks;
`number`/`integer` attach strict `gt`/`lt` bounds (`int()`-truncated for
integers); `array` keeps item typing and count bounds; `object` maps to an
untyped dict; every other type token degrades to an unconstrained field. -/
def compileField (field_name : String) (fd : FieldDef) : CompiledField :=
  let min_value := pyOrQ fd.gt fd.min
  let max_value := pyOrQ fd.lt fd.max
  match fd.type with
  | some "string" =>
    let base : BaseKind :=
      if fd.format = some "email" then .strEmail
      else if fd.format = some "date" then .strPlain
      else if isNameFieldName field_name then .strName
      else .strPlain
    { base := base, required := fd.required,
      minLength := fd.min_length, maxLength := fd.max_length,
      dateCheck := fd.format = some "date", patternCheck := fd.pattern }
  | some "number" =>
    { base := .num min_value max_value, required := fd.required }
  | some "integer" =>
    { base := .int (min_value.map pyInt) (max_value.map pyInt), required := fd.required }
  | some "boolean" =>
    { base := .bool, required := fd.required }
  | some "array" =>
    { base := .arr (itemKindOf fd.items), required := fd.required,
      minLength := fd.min_length, maxLength := fd.max_length }
  | some "object" =>
    { base := .objAny, required := fd.required }
  | _ =>
    { base := .anyv, required := fd.required }

/-- `create_model_from_schema`: compile every field, in schema order. -/
def create_model_from_schema (schema : Schema) : CompiledModel :=
  schema.map (fun (f, fd) => (f, compileField f fd))

/-! ### Structural validation runner
(`perform_structural_validation`, `app/validation.py` 290-345)

External Python libraries used by the compiled validator are modelled as
explicit parameters: `reMatch p s` is the truthiness of `re.match(p, s)` and
`emailOk` is the acceptance predicate of pydantic's `EmailStr` backing
library. -/

structure PyLibs where
  reMatch : String → String → Bool
  emailOk : String → Bool

/-- One pydantic validation error: dotted location, error-kind token,
message, and the suggestion added by the error-enhancement pass. -/
structure PyError where
  loc : String
  type : String
  msg : String
  suggestion : Option String := none
  deriving Repr, DecidableEq

/-- Decimal digits of a string parse to a rational (Python float-ish strings
`[-]digits[.digits]`; scientific notation is not modelled, no claim uses
it). -/
def parseDecQ (s : String) : Option ℚ :=
  let core (l : List Char) : Option ℚ :=
    match l.span (fun c => c != '.') with
    | (ip, []) => (parseDigits ip).map (fun n => (n : ℚ))
    | (ip, _ :: fp) =>
      match parseDigits ip, parseDigits fp with
      | some n, some m => some ((n : ℚ) + (m : ℚ) / ((10 : ℚ) ^ fp.length))
      | _, _ => none
  match s.data with
  | '-' :: rest => (core rest).map (fun q => -q)
  | l => core l

/-- Integer-shaped string (optional leading minus sign, then digits) to an
integer. -/
def parseIntStr (s : String) : Option ℤ :=
  match s.data with
  | '-' :: rest => (parseDigits rest).map (fun n => -(n : ℤ))
  | l => (parseDigits l).map (fun n => (n : ℤ))

/-- Lax (pydantic v2 default mode) coercion to `int`: exact ints, integral
floats, and integer-shaped strings. -/
def laxInt : JValue → Except (String × String) ℤ
  | .int n => .ok n
  | .num q =>
    if q.den = 1 then .ok q.num
    else .error ("int_from_float", "Input should be a valid integer, got a number with a fractional part")
  | .str s =>
    match parseIntStr s with
    | some n => .ok n
    | none => .error ("int_parsing", "Input should be a valid integer, unable to parse string as an integer")
  | _ => .error ("int_type", "Input should be a valid integer")

/-- Lax coercion to `float`. -/
def laxFloat : JValue → Except (String × String) ℚ
  | .num q => .ok q
  | .int n => .ok (n : ℚ)
  | .str s =>
    match parseDecQ s with
    | some q => .ok q
    | none => .error ("float_parsing", "Input should be a valid number, unable to parse string as a number")
  | _ => .error ("float_type", "Input should be a valid number")

/-- Lax coercion to `bool`. -/
def laxBool : JValue → Except (String × String) Bool
  | .bool b => .ok b
  | .int 0 => .ok false
  | .int 1 => .ok true
  | .str s =>
    let l : String := ⟨s.data.map Char.toLower⟩
    if l ∈ (["true", "t", "yes", "y", "on", "1"] : List String) then .ok true
    else if l ∈ (["false", "f", "no", "n", "off", "0"] : List String) then .ok false
    else .error ("bool_parsing", "Input should be a valid boolean, unable to interpret input")
  | _ => .error ("bool_type", "Input should be a valid boolean")

/-- The strict `gt` bound check of an integer field, then the strict `lt`
bound check, in the order the field arguments are attached. -/
def checkIntLt (lt : Option ℤ) (v : ℤ) : Option (String × String) :=
  match lt with
  | some l =>
    if v < l then none
    else some ("less_than", "Input should be less than " ++ toString l)
  | none => none

/-- Range check of a compiled integer field: `none` means the value passes
both strict bounds. -/
def checkIntBounds (gt lt : Option ℤ) (v : ℤ) : Option (String × String) :=
  match gt with
  | some g =>
    if g < v then checkIntLt lt v
    else some ("greater_than", "Input should be greater than " ++ toString g)
  | none => checkIntLt lt v

/-- As `checkIntLt`, for float fields. -/
def checkFloatLt (lt : Option ℚ) (v : ℚ) : Option (String × String) :=
  match lt with
  | some l =>
    if v < l then none
    else some ("less_than", "Input should be less than a bound")
  | none => none

/-- Range check of a compiled float field (strict bounds). -/
def checkFloatBounds (gt lt : Option ℚ) (v : ℚ) : Option (String × String) :=
  match gt with
  | some g =>
    if g < v then checkFloatLt lt v
    else some ("greater_than", "Input should be greater than a bound")
  | none => checkFloatLt lt v

/-- Gregorian leap year (as used by Python's `datetime`). -/
def isLeapYear (y : ℕ) : Bool :=
  y % 4 == 0 && (y % 100 != 0 || y % 400 == 0)

/-- Days in a month, Gregorian calendar. -/
def daysInMonth (y m : ℕ) : ℕ :=
  if m = 2 then (if isLeapYear y then 29 else 28)
  else if m ∈ ([4, 6, 9, 11] : List ℕ) then 30
  else 31

/-- `datetime.strptime(v, "%Y-%m-%d")` succeeds: `%Y` is exactly four
digits, `%m` and `%d` are one or two digits (CPython's `TimeRE` patterns),
the whole string is consumed, and the resulting date exists on the calendar
(year at least 1). -/
def strptimeDateOk (s : String) : Bool :=
  match splitOnChar '-' s.data with
  | [ys, ms, ds] =>
    ys.length = 4 && ys.all Char.isDigit &&
    (ms.length = 1 || ms.length = 2) && ms.all Char.isDigit &&
    (ds.length = 1 || ds.length = 2) && ds.all Char.isDigit &&
    (let y := digitsToNat ys
     let m := digitsToNat ms
     let d := digitsToNat ds
     1 ≤ y && 1 ≤ m && m ≤ 12 && 1 ≤ d && d ≤ daysInMonth y m)
  | _ => false

/-- The synthesized date validator (`app/validation.py` lines 161-173,
`mode='before'`): a falsy value is returned unvalidated; otherwise the value
must `strptime` as `%Y-%m-%d`.  (`strptime` on a non-string raises; the
raised error is reported like the `ValueError` branch here, no claim
distinguishes them.) -/
def dateBeforeCheck (field : String) (v : JValue) : Except (String × String) JValue :=
  if pyFalsy v then .ok v
  else match v with
    | .str s =>
      if strptimeDateOk s then .ok v
      else .error ("value_error",
        "Value error, " ++ field ++ " must be a valid date in YYYY-MM-DD format")
    | _ => .error ("value_error",
        "Value error, " ++ field ++ " must be a valid date in YYYY-MM-DD format")

/-- The synthesized regex-pattern validator (`app/validation.py` lines
186-198, `mode='before'`): a falsy value is returned unvalidated; otherwise
`re.match(pattern, v)` must be truthy. -/
def patternBeforeCheck (libs : PyLibs) (field : String) (p : String) (v : JValue) :
    Except (String × String) JValue :=
  if pyFalsy v then .ok v
  else match v with
    | .str s =>
      if libs.reMatch p s then .ok v
      else .error ("value_error",
        "Value error, " ++ field ++ " must match the required pattern")
    | _ => .error ("value_error",
        "Value error, " ++ field ++ " must match the required pattern")

/-- Coerce one array element per the compiled item kind. -/
def coerceItem (item : ItemKind) (v : JValue) : Except (String × String) JValue :=
  match item with
  | .str =>
    match v with
    | .str _ => .ok v
    | _ => .error ("string_type", "Input should be a valid string")
  | .num => (laxFloat v).map JValue.num
  | .int => (laxInt v).map JValue.int
  | .bool => (laxBool v).map JValue.bool
  | .anyv => .ok v

/-- Coerce all array elements, reporting the first failing index. -/
def coerceItems (item : ItemKind) : List JValue → Except (ℕ × String × String) (List JValue)
  | [] => .ok []
  | v :: rest =>
    match coerceItem item v with
    | .ok w =>
      match coerceItems item rest with
      | .ok ws => .ok (w :: ws)
      | .error (i, e) => .error (i + 1, e)
    | .error e => .error (0, e)

/-- String length bound checks attached through `Field(min_length=…,
max_length=…)`. -/
def checkLenBounds (tooShort tooLong : String) (minL maxL : Option ℕ) (n : ℕ) :
    Option (String × String) :=
  match minL with
  | some m =>
    if n < m then some (tooShort, "Input should have at least " ++ toString m ++ " items or characters")
    else match maxL with
      | some M => if M < n then some (tooLong, "Input should have at most " ++ toString M ++ " items or characters") else none
      | none => none
  | none =>
    match maxL with
    | some M => if M < n then some (tooLong, "Input should have at most " ++ toString M ++ " items or characters") else none
    | none => none

/-- Validation and coercion of one present value against a compiled field:
the synthesized before-validators run first (date, then pattern, then the
array `isinstance(list)` guard), then the base-type coercion (which for
`NameStr` runs `validate_name_content` and for `EmailStr` the email library),
then length and numeric bounds.  Returns the coerced value or the first
pydantic error for this field. -/
def validateValue (libs : PyLibs) (f : String) (cf : CompiledField) (v : JValue) :
    Except (String × String) JValue :=
  match (if cf.dateCheck then dateBeforeCheck f v else .ok v) with
  | .error e => .error e
  | .ok v =>
    match (match cf.patternCheck with
           | some p => patternBeforeCheck libs f p v
           | none => .ok v) with
    | .error e => .error e
    | .ok v =>
      match cf.base with
      | .strPlain =>
        match v with
        | .str s =>
          match checkLenBounds "string_too_short" "string_too_long" cf.minLength cf.maxLength s.data.length with
          | some e => .error e
          | none => .ok (.str s)
        | _ => .error ("string_type", "Input should be a valid string")
      | .strEmail =>
        match v with
        | .str s =>
          if libs.emailOk s then
            match checkLenBounds "string_too_short" "string_too_long" cf.minLength cf.maxLength s.data.length with
            | some e => .error e
            | none => .ok (.str s)
          else .error ("value_error", "value is not a valid email address")
        | _ => .error ("string_type", "Input should be a valid string")
      | .strName =>
        -- `NameStr = Annotated[str, BeforeValidator(validate_name_content)]`:
        -- the heuristic runs before the str core check; Python falsy values
        -- hit the first (too-short) branch of `validate_name_content`.
        if pyFalsy v then .error ("name_too_short", nameErrorMessage .name_too_short)
        else match v with
          | .str s =>
            match validate_name_content s with
            | .error e => .error (nameErrorType e, nameErrorMessage e)
            | .ok _ =>
              match checkLenBounds "string_too_short" "string_too_long" cf.minLength cf.maxLength s.data.length with
              | some e => .error e
              | none => .ok (.str s)
          | _ => .error ("attribute_error", "object has no attribute strip")
      | .num gt lt =>
        match laxFloat v with
        | .error e => .error e
        | .ok q =>
          match checkFloatBounds gt lt q with
          | some e => .error e
          | none => .ok (.num q)
      | .int gt lt =>
        match laxInt v with
        | .error e => .error e
        | .ok n =>
          match checkIntBounds gt lt n with
          | some e => .error e
          | none => .ok (.int n)
      | .bool => (laxBool v).map JValue.bool
      | .arr item =>
        match v with
        | .arr elems =>
          match coerceItems item elems with
          | .error (_, e) => .error e
          | .ok ws =>
            match checkLenBounds "too_short" "too_long" cf.minLength cf.maxLength ws.length with
            | some e => .error e
            | none => .ok (.arr ws)
        | _ => .error ("value_error", "Value error, " ++ f ++ " must be an array/list")
      | .objAny =>
        match v with
        | .obj _ => .ok v
        | _ => .error ("dict_type", "Input should be a valid dictionary")
      | .anyv => .ok v

/-- Validate one field of the model against the record: a missing required
field is a `missing` error; a missing optional field dumps as `None`. -/
def validateField (libs : PyLibs) (data : Record) (f : String) (cf : CompiledField) :
    Except PyError (String × JValue) :=
  match data.lookup f with
  | none =>
    if cf.required then .error { loc := f, type := "missing", msg := "Field required" }
    else .ok (f, .null)
  | some v =>
    match validateValue libs f cf v with
    | .ok w => .ok (f, w)
    | .error (t, m) => .error { loc := f, type := t, msg := m }

/-- `model_class.model_validate(data)`: every field is checked (errors are
collected across fields, not short-circuited); on success the dump contains
the coerced value of every model field, in model order (extra record keys
are ignored and dropped, pydantic's default). -/
def model_validate (libs : PyLibs) (model : CompiledModel) (data : Record) :
    Except (List PyError) Record :=
  let outcomes := model.map (fun (f, cf) => validateField libs data f cf)
  let errs := outcomes.filterMap (fun o => match o with | .error e => some e | .ok _ => none)
  if errs.isEmpty then
    .ok (outcomes.filterMap (fun o => match o with | .ok fv => some fv | .error _ => none))
  else
    .error errs

/-- `StructuralValidationResult` (`app/schemas/models.py`). -/
structure StructuralValidationResult where
  is_structurally_valid : Bool
  errors : List PyError := []
  suggestions : List String := []
  deriving Repr, DecidableEq

/-- The error-enhancement pass over pydantic errors
(`app/validation.py` lines 321-333, repeated in `app/main.py`): attach a
human suggestion keyed on the error type token. -/
def enhanceError (e : PyError) : PyError :=
  if e.type = "string_type" then
    { e with suggestion := some ("The value for \x27" ++ e.loc ++ "\x27 must be a string") }
  else if e.type = "float_parsing" then
    { e with suggestion := some ("The value for \x27" ++ e.loc ++ "\x27 must be a valid number, not a string") }
  else if e.type = "list_type" then
    { e with suggestion := some ("The value for \x27" ++ e.loc ++ "\x27 must be an array/list, not a string") }
  else if e.type = "value_error.email" then
    { e with suggestion := some ("\x27" ++ e.loc ++ "\x27 must be a valid email address format (e.g., user@example.com)") }
  else if containsSub "date".data e.type.data then
    { e with suggestion := some ("\x27" ++ e.loc ++ "\x27 must be in YYYY-MM-DD format (e.g., 2023-10-15)") }
  else if containsSub "pattern".data e.type.data then
    { e with suggestion := some ("\x27" ++ e.loc ++ "\x27 does not match the required pattern") }
  else e

/-- `perform_structural_validation` (`app/validation.py` 290-345): run the
compiled model; on success return the valid result together with the coerced
dump; on failure enhance the errors, synthesize the suggestion list, and
return the failed result together with the original record unchanged. -/
def perform_structural_validation (libs : PyLibs) (data : Record) (model : CompiledModel) :
    StructuralValidationResult × Record :=
  match model_validate libs model data with
  | .ok validated =>
    ({ is_structurally_valid := true, errors := [], suggestions := [] }, validated)
  | .error errs =>
    let errs := errs.map enhanceError
    ({ is_structurally_valid := false,
       errors := errs,
       suggestions := errs.map (fun e => "Fix validation error: " ++ e.msg) },
     data)

/-! ### Heuristic semantic validator
(`basic_semantic_validation`, `app/validation.py` 347-462) -/

/-- `SemanticValidationResult` (`app/schemas/models.py`); the float score is
modelled as a rational. -/
structure SemanticValidationResult where
  is_semantically_valid : Bool
  semantic_score : ℚ
  issues : List String := []
  suggestions : List String := []
  deriving Repr, DecidableEq

/-- `ValidationLevel` (`app/schemas/models.py`). -/
inductive ValidationLevel where
  | structure_only | basic | standard | strict
  deriving Repr, DecidableEq

/-- Characters of the local part of the heuristic email regex,
`[a-zA-Z0-9._%+-]`. -/
def isEmailLocalChar (c : Char) : Bool :=
  c.isAlpha || c.isDigit || c ∈ (['.', '_', '%', '+', '-'] : List Char)

/-- Characters of the domain part, `[a-zA-Z0-9.-]`. -/
def isEmailDomainChar (c : Char) : Bool :=
  c.isAlpha || c.isDigit || c = '.' || c = '-'

/-- `re.match(r'^[a-zA-Z0-9._%+-]+@[a-zA-Z0-9.-]+\.[a-zA-Z]{2,}$', value)`
(`app/validation.py` line 402).  Since `@` belongs to no character class of
the pattern, a match splits the string at its first `@`; and since the
letters of the final `[a-zA-Z]{2,}` group are also domain characters,
backtracking succeeds exactly when the maximal all-letter suffix after the
`@` has length at least two and is preceded by a dot with at least one
domain character before it. -/
def emailRegexOk (s : String) : Bool :=
  match splitFirst '@' s.data with
  | none => false
  | some (localPart, rest) =>
    !localPart.isEmpty && localPart.all isEmailLocalChar &&
    (let r := rest.reverse
     let suf := r.takeWhile (·.isAlpha)
     match r.dropWhile (·.isAlpha) with
     | '.' :: before => 2 ≤ suf.length && !before.isEmpty && before.all isEmailDomainChar
     | _ => false)

/-- `re.match(r'^\d{4}-\d{2}-\d{2}$', value)`: the exact `dddd-dd-dd` shape
checked by the heuristic date rule (`app/validation.py` line 410). -/
def dateShapeOk : List Char → Bool
  | [y1, y2, y3, y4, h1, m1, m2, h2, d1, d2] =>
    ([y1, y2, y3, y4, m1, m2, d1, d2].all Char.isDigit) && h1 = '-' && h2 = '-'
  | _ => false

/-- The field names treated as emails by the heuristic. -/
def emailFieldNames : List String := ["email", "email_address"]

/-- The field names treated as dates by the heuristic. -/
def dateFieldNames : List String :=
  ["date", "birthday", "birth_date", "order_date", "publication_date"]

/-- The field names treated as phone numbers by the heuristic. -/
def phoneFieldNames : List String :=
  ["phone", "phone_number", "contact_phone", "telephone", "mobile"]

/-- The field names treated as person names by the heuristic
(`app/validation.py` line 431). -/
def nameFieldNames : List String :=
  ["name", "customer_name", "full_name", "first_name", "last_name",
   "contact_name", "person_name"]

/-- `schema.get(field_name, {})`. -/
def schemaGet (schema : Schema) (f : String) : FieldDef :=
  (schema.lookup f).getD {}

/-- The phone-field trigger: a phone-like field name, or a truthy `pattern`
containing the substring `\d` (`app/validation.py` lines 423-424). -/
def phoneTrigger (f : String) (fd : FieldDef) : Bool :=
  f ∈ phoneFieldNames ||
    (match fd.pattern with
     | some p => !(p = "") && containsSub ['\\', 'd'] p.data
     | none => false)

/-- Issue/suggestion pairs the format loop produces for one data entry
(`app/validation.py` lines 396-438): the email, date, phone and name checks
run independently, in source order. -/
def formatIssuesFor (schema : Schema) (f : String) (v : JValue) :
    List (String × String) :=
  let fd := schemaGet schema f
  let emailPart : List (String × String) :=
    match v with
    | .str s =>
      if (f ∈ emailFieldNames || fd.format = some "email") && !(emailRegexOk s) then
        [("Field \x27" ++ f ++ "\x27 is not a valid email address",
          "Provide a valid email address for \x27" ++ f ++ "\x27 (e.g., user@example.com)")]
      else []
    | _ => []
  let datePart : List (String × String) :=
    match v with
    | .str s =>
      if f ∈ dateFieldNames || fd.format = some "date" then
        if !(dateShapeOk s.data) then
          [("Field \x27" ++ f ++ "\x27 is not in a valid date format",
            "Use YYYY-MM-DD format for \x27" ++ f ++ "\x27 (e.g., 2023-10-15)")]
        else if !(strptimeDateOk s) then
          [("Field \x27" ++ f ++ "\x27 contains an invalid date",
            "Provide a valid date for \x27" ++ f ++ "\x27 (e.g., 2023-10-15)")]
        else []
      else []
    | _ => []
  let phonePart : List (String × String) :=
    match v with
    | .str s =>
      if phoneTrigger f fd then
        let digits := s.data.filter Char.isDigit
        if !(7 ≤ digits.length && digits.length ≤ 15) then
          [("Field \x27" ++ f ++ "\x27 does not appear to be a valid phone number",
            "Provide a valid phone number for \x27" ++ f ++ "\x27")]
        else []
      else []
    | _ => []
  let namePart : List (String × String) :=
    match v with
    | .str s =>
      if f ∈ nameFieldNames then
        match validate_name_content s with
        | .error e =>
          [("Field \x27" ++ f ++ "\x27: " ++ nameErrorMessage e,
            "Provide a valid name for \x27" ++ f ++ "\x27")]
        | .ok _ => []
      else []
    | _ => []
  emailPart ++ datePart ++ phonePart ++ namePart

/-- The empty-string check (`app/validation.py` lines 384-387). -/
def emptyStringIssues (data : Record) : List (String × String) :=
  data.filterMap (fun (f, v) =>
    match v with
    | .str s =>
      if (stripChars s.data).isEmpty then
        some ("Field \x27" ++ f ++ "\x27 is empty",
              "Provide meaningful content for \x27" ++ f ++ "\x27")
      else none
    | _ => none)

/-- The completeness check (`app/validation.py` lines 390-393). -/
def missingFieldIssues (data : Record) (schema : Schema) : List (String × String) :=
  schema.filterMap (fun (f, fd) =>
    if fd.required && (data.lookup f).isNone then
      some ("Required field \x27" ++ f ++ "\x27 is missing",
            "Add the required field \x27" ++ f ++ "\x27")
    else none)

/-- Python `len()` on the values it is defined for; `none` models the
`TypeError` raised on numbers, booleans and `None`. -/
def pyLen : JValue → Option ℕ
  | .str s => some s.data.length
  | .arr l => some l.length
  | .obj l => some l.length
  | _ => none

/-- The `validation_type`-keyed content-quality check
(`app/validation.py` lines 441-449); `none` propagates the `TypeError` that
`len(data.get(key, ""))` raises on a present non-sized value. -/
def qualityIssues (validation_type : String) (data : Record) :
    Option (List (String × String)) :=
  if validation_type = "recommendation" then
    match data.lookup "recommendation_text" with
    | none => some []
    | some v =>
      match pyLen v with
      | none => none
      | some n =>
        if n < 20 then
          some [("Recommendation text is too short",
                 "Provide more detailed recommendations (at least 20 characters)")]
        else some []
  else if validation_type = "summary" then
    match data.lookup "summary" with
    | none => some []
    | some v =>
      match pyLen v with
      | none => none
      | some n =>
        if n < 30 then
          some [("Summary is too short",
                 "Provide a more comprehensive summary (at least 30 characters)")]
        else some []
  else some []

/-- The score formula of the heuristic (`app/validation.py` lines 452-455):
`1.0` when there are no issues, else `max(0.0, 1.0 - issue_count * 0.1)`. -/
def scoreOfCount (n : ℕ) : ℚ :=
  if n = 0 then 1 else max 0 (1 - (n : ℚ) * (1 / 10))

/-- Truthiness of the `structural_errors` argument combined with its length
check (`if structural_errors and len(structural_errors) > 0`). -/
def structuralErrorsNonempty : Option (List PyError) → Bool
  | some l => !l.isEmpty
  | none => false

/-- `basic_semantic_validation` (`app/validation.py` 347-462), the Heuristic
Semantic Validator.  Deterministic; `none` models the only way the source can
raise (a `TypeError` from `len()` in the content-quality check). -/
def basic_semantic_validation (validation_type : String)
    (_validation_level : ValidationLevel) (data : Record) (schema : Schema)
    (structural_errors : Option (List PyError)) : Option SemanticValidationResult :=
  if structuralErrorsNonempty structural_errors then
    some { is_semantically_valid := false, semantic_score := 0,
           issues := ["Failed structural validation"],
           suggestions := ["Fix structural errors before semantic validation"] }
  else
    match qualityIssues validation_type data with
    | none => none
    | some quality =>
      let pairs :=
        emptyStringIssues data ++ missingFieldIssues data schema ++
        (data.flatMap (fun (f, v) => formatIssuesFor schema f v)) ++ quality
      let issues := pairs.map Prod.fst
      some { is_semantically_valid := issues.isEmpty,
             semantic_score := scoreOfCount issues.length,
             issues := issues,
             suggestions := pairs.map Prod.snd }

/-! ### Semantic validation orchestrator
(`perform_semantic_validation`, `app/validation.py` 464-605)

The remote reasoning service is external: its behaviour on one call is
modelled as an `AgentOutcome`.  `get_validation_agent()` returning `None` is
the `Option.none` agent. -/

/-- What one `await agent.run(...)` call can do, as observed by the
orchestrator: return a well-typed `SemanticValidationResult`, return a value
of the wrong type, hit `asyncio.TimeoutError` under `asyncio.wait_for`, or
raise some other exception. -/
inductive AgentOutcome where
  | success (r : SemanticValidationResult)
  | wrongType
  | timeout
  | failure (msg : String)
  deriving Repr, DecidableEq

/-- The `default_result` built before the remote call
(`app/validation.py` lines 548-553). -/
def default_result : SemanticValidationResult :=
  { is_semantically_valid := true, semantic_score := 1, issues := [], suggestions := [] }

/-- The fixed result returned on `asyncio.TimeoutError`
(`app/validation.py` lines 586-591). -/
def timeout_result : SemanticValidationResult :=
  { is_semantically_valid := false, semantic_score := 0,
    issues := ["Validation timed out"],
    suggestions := ["Try with simpler data or schema"] }

/-- The result returned for non-dict `data`/`schema`
(`app/validation.py` lines 488-493). -/
def invalid_input_result : SemanticValidationResult :=
  { is_semantically_valid := false, semantic_score := 0,
    issues := ["Invalid input format. Both data and schema must be valid JSON objects."],
    suggestions := ["Ensure both data and schema are valid JSON objects."] }

/-- The direct feedback for empty `data`/`schema`
(`app/validation.py` lines 496-514), with the source's conditional shape
kept as written. -/
def empty_input_result (dataEmpty schemaEmpty : Bool) : SemanticValidationResult :=
  let issues :=
    (if dataEmpty then ["The provided data is empty"] else []) ++
    (if schemaEmpty then ["The provided schema is empty"] else [])
  let suggestions :=
    (if dataEmpty then ["Provide actual content to validate"] else []) ++
    (if schemaEmpty then ["Define a schema with fields and validation rules"] else [])
  { is_semantically_valid := issues.isEmpty,
    semantic_score := if issues.isEmpty then 1 else 0,
    issues := issues, suggestions := suggestions }

/-- Models the `isinstance(x, dict)` input-shape guard: an argument is
either the dict we model, or some non-dict value. -/
inductive PyInput (α : Type) where
  | dict (val : α)
  | nonDict
  deriving Repr, DecidableEq

/-- `perform_semantic_validation` (`app/validation.py` 464-605), the
Semantic Validation Orchestrator.  Decision order as in the source: the
input-shape guard, the empty-data/schema short-circuit, the no-agent
heuristic delegation, then the remote call.  A well-typed response is
returned as-is (its scalar fields are mandatory on the pydantic model, so
the `None`-repair of lines 572-576 cannot change it); a wrong-typed
response and every non-timeout exception of the `await` return the
permissive `default_result`; a timeout returns `timeout_result`.  The outer
`except` of lines 596-605 is unreachable: the inner handlers already catch
every exception of the guarded block.  `none` models the only remaining
raise path (through the heuristic).  -/
def perform_semantic_validation (dataI : PyInput Record) (schemaI : PyInput Schema)
    (validation_type : String) (validation_level : ValidationLevel)
    (agent : Option AgentOutcome) : Option SemanticValidationResult :=
  match dataI, schemaI with
  | .dict data, .dict schema =>
    if data.isEmpty || schema.isEmpty then
      some (empty_input_result data.isEmpty schema.isEmpty)
    else
      match agent with
      | none => basic_semantic_validation validation_type validation_level data schema none
      | some outcome =>
        match outcome with
        | .success r => some r
        | .wrongType => some default_result
        | .timeout => some timeout_result
        | .failure _ => some default_result
  | _, _ => some invalid_input_result

/-! ### Result aggregation in the `/validate` endpoint
(`validate_ai_output`, `app/main.py` 354-425)

The endpoint's behaviour after structural validation is a function of the
requested level, the structural result, and the outcome of the awaited
semantic-validation call (`.ok` a result, or `.error` the message of the
exception the call raised — the `except Exception` branch of the source). -/

/-- `ValidationResponse` (`app/schemas/models.py`). -/
structure ValidationResponse where
  is_valid : Bool
  structural_validation : StructuralValidationResult
  semantic_validation : Option SemanticValidationResult := none
  deriving Repr, DecidableEq

/-- The semantic result built in the endpoint's `except` branch
(`app/main.py` lines 415-421). -/
def semantic_error_result (msg : String) : SemanticValidationResult :=
  { is_semantically_valid := false, semantic_score := 0,
    issues := ["Error during semantic validation: " ++ msg],
    suggestions := ["Try a different validation level or check the system configuration."] }

/-- `validate_ai_output` (`app/main.py` 354-425) after structural
validation: on structural failure the endpoint enhances the errors and
returns immediately — for every level, with no escalation check — with
`semantic_validation` absent; otherwise, unless the level is
`structure_only`, the semantic call is awaited and the final verdict is the
conjunction of the two phases (an exception from the call yields the error
semantic result and an invalid verdict). -/
def validate_ai_output (level : ValidationLevel)
    (structural : StructuralValidationResult)
    (semanticCall : Except String SemanticValidationResult) : ValidationResponse :=
  if !structural.is_structurally_valid then
    { is_valid := false,
      structural_validation := { structural with errors := structural.errors.map enhanceError },
      semantic_validation := none }
  else if level ≠ .structure_only then
    match semanticCall with
    | .ok sem =>
      { is_valid := structural.is_structurally_valid && sem.is_semantically_valid,
        structural_validation := structural,
        semantic_validation := some sem }
    | .error msg =>
      { is_valid := false,
        structural_validation := structural,
        semantic_validation := some (semantic_error_result msg) }
  else
    { is_valid := structural.is_structurally_valid,
      structural_validation := structural,
      semantic_validation := none }

/-! ### `enhance_validation` (`app/ai_agent.py` 363-419)

`ai_agent.py` has its own three-value `ValidationLevel` (no
`structure_only`).  The semantic phase of `enhance_validation` runs iff the
standard result's `status` is `"valid"` or the level is `STRICT`; its own
`perform_semantic_validation` always returns a result object, so
`semantic_validation` is present in the response exactly when that branch
ran (or when the API key is missing, in which case a fixed "disabled"
payload is returned). -/

/-- `ValidationLevel` as defined in `app/ai_agent.py` lines 36-40. -/
inductive AgentValidationLevel where
  | basic | standard | strict
  deriving Repr, DecidableEq

/-- The fixed semantic payload returned when no OpenAI API key is
configured (`app/ai_agent.py` lines 389-398). -/
def api_key_missing_result : SemanticValidationResult :=
  { is_semantically_valid := false, semantic_score := 0,
    issues := ["OpenAI API key not configured. Semantic validation is disabled."],
    suggestions := ["Configure OPENAI_API_KEY environment variable to enable semantic validation."] }

/-- `enhance_validation` (`app/ai_agent.py` 363-419), reduced to the
`semantic_validation` component of its response: `apiKeyConfigured` is the
truthiness of `settings.OPENAI_API_KEY`, `standardStatus` is
`standard_validation_result.get("status")`, and `semanticResult` is what its
awaited `perform_semantic_validation` call returns when invoked. -/
def enhance_validation (apiKeyConfigured : Bool) (standardStatus : Option String)
    (validation_level : AgentValidationLevel)
    (semanticResult : SemanticValidationResult) : Option SemanticValidationResult :=
  if !apiKeyConfigured then
    some api_key_missing_result
  else if standardStatus = some "valid" || validation_level = .strict then
    some semanticResult
  else
    none

/-! ### Concrete instances used by the theorems below -/

/-- A concrete external-library instantiation (any other one would do for
the scenarios below, which never consult the libraries). -/
def trivialLibs : PyLibs :=
  { reMatch := fun _ _ => false, emailOk := fun _ => false }

/-- Scenario B schema: `{"count": {"type": "integer", "required": true,
"min": 1, "max": 10}}`. -/
def countSchema : Schema :=
  [("count", { type := some "integer", required := true, min := some 1, max := some 10 })]

/-- The structural result of validating `{"count": 20}` against
`countSchema`. -/
def countFailResult : StructuralValidationResult :=
  { is_structurally_valid := false,
    errors := [{ loc := "count", type := "less_than",
                 msg := "Input should be less than 10", suggestion := none }],
    suggestions := ["Fix validation error: Input should be less than 10"] }

/-- A required string field with `format: "date"`. -/
def dateOnlySchema : Schema :=
  [("d", { type := some "string", required := true, format := some "date" })]

/-- A required string field with a regex `pattern` and no `min_length`. -/
def patternOnlySchema : Schema :=
  [("p", { type := some "string", required := true, pattern := some "^\\d{10}$" })]

/-- A schema with one required string field named `summary`. -/
def summarySchema : Schema :=
  [("summary", { type := some "string", required := true })]

/-- The record `{"summary": "short"}`. -/
def summaryShortData : Record := [("summary", JValue.str "short")]

/-- What the Heuristic Semantic Validator returns for `summaryShortData`
against `summarySchema` with `validation_type = "summary"` (Scenario D):
one issue, score `0.9`. -/
def summaryShortResult : SemanticValidationResult :=
  { is_semantically_valid := false, semantic_score := scoreOfCount 1,
    issues := ["Summary is too short"],
    suggestions := ["Provide a more comprehensive summary (at least 30 characters)"] }

/-- A minimal structurally-invalid result. -/
def invalidSR : StructuralValidationResult := { is_structurally_valid := false }

/-- A minimal structurally-valid result. -/
def validSR : StructuralValidationResult := { is_structurally_valid := true }

/-! ### Helper lemmas -/

theorem isPrefixList_length {pat l : List Char} (h : isPrefixList pat l = true) :
    pat.length ≤ l.length := by
  induction pat generalizing l with
  | nil => simp
  | cons p ps ih =>
    cases l with
    | nil => simp [isPrefixList] at h
    | cons c cs =>
      simp only [isPrefixList, Bool.and_eq_true] at h
      simpa using ih h.2

theorem containsSub_length {pat l : List Char} (h : containsSub pat l = true) :
    pat.length ≤ l.length := by
  induction l with
  | nil => simpa using isPrefixList_length h
  | cons c cs ih =>
    simp only [containsSub, Bool.or_eq_true] at h
    rcases h with h | h
    · exact isPrefixList_length h
    · exact (ih h).trans (by simp)

theorem dropWhile_of_all_not {p : Char → Bool} {l : List Char}
    (h : ∀ c ∈ l, p c = false) : l.dropWhile p = l := by
  cases l with
  | nil => rfl
  | cons c cs => simp [List.dropWhile, h c (by simp)]

theorem stripChars_of_all_not {l : List Char}
    (h : ∀ c ∈ l, isPySpace c = false) : stripChars l = l := by
  unfold stripChars
  rw [dropWhile_of_all_not h, dropWhile_of_all_not (fun c hc => h c (by simpa using hc)),
    List.reverse_reverse]

theorem isAlpha_not_pySpace {c : Char} (h : c.isAlpha = true) :
    isPySpace c = false := by
  by_contra hc
  rw [Bool.not_eq_false] at hc
  simp only [isPySpace, Bool.or_eq_true, decide_eq_true_eq] at hc
  rcases hc with ((((rfl | rfl) | rfl) | rfl) | rfl) | rfl <;> simp_all

theorem isAlpha_nameChar {c : Char} (h : c.isAlpha = true) :
    isNameChar c = true := by
  simp [isNameChar, h]

theorem scoreOfCount_le_one (n : ℕ) : scoreOfCount n ≤ 1 := by
  unfold scoreOfCount
  split
  · exact le_refl 1
  · refine max_le (by norm_num) ?_
    have : (0 : ℚ) ≤ (n : ℚ) * (1 / 10) := by positivity
    linarith

theorem scoreOfCount_eq_one_iff (n : ℕ) : scoreOfCount n = 1 ↔ n = 0 := by
  constructor
  · intro h
    by_contra hn
    have h1 : (1 : ℚ) ≤ (n : ℚ) := by exact_mod_cast Nat.one_le_iff_ne_zero.mpr hn
    have h2 : scoreOfCount n ≤ 9 / 10 := by
      unfold scoreOfCount
      rw [if_neg hn]
      refine max_le (by norm_num) ?_
      linarith
    rw [h] at h2
    norm_num at h2
  · intro h
    simp [scoreOfCount, h]

theorem scoreOfCount_antitone {a b : ℕ} (h : a ≤ b) :
    scoreOfCount b ≤ scoreOfCount a := by
  rcases Nat.eq_zero_or_pos a with ha | ha
  · rw [ha]
    simpa [scoreOfCount] using scoreOfCount_le_one b
  · have ha0 : a ≠ 0 := Nat.pos_iff_ne_zero.mp ha
    have hb : b ≠ 0 := Nat.pos_iff_ne_zero.mp (lt_of_lt_of_le ha h)
    unfold scoreOfCount
    rw [if_neg hb, if_neg ha0]
    refine max_le_max (le_refl 0) ?_
    have : (a : ℚ) ≤ (b : ℚ) := by exact_mod_cast h
    nlinarith

/-! ### Claim theorems -/

/-- Claim C6: `validate_name_content` accepts `"John Smith"` unchanged, and
rejects `"qwertyuiop"` (keyboard pattern), `"aaaaaaaaa"` (four or more
identical consecutive characters) and `"x"` (shorter than two characters). -/
theorem C6_name_heuristic_cases :
    validate_name_content "John Smith" = .ok "John Smith" ∧
    validate_name_content "qwertyuiop" = .error .keyboard_pattern ∧
    validate_name_content "aaaaaaaaa" = .error .repeating_characters ∧
    validate_name_content "x" = .error .name_too_short :=
  ⟨rfl, rfl, rfl, rfl⟩

/-- Claim C9: the synthesized date-format and regex-pattern validators
return any falsy value unvalidated, so the empty string passes the
structural date/pattern checks — for any behaviour of the regex library —
and a record carrying `""` in a `format: "date"` or `pattern` string field
(without `min_length`) is structurally valid. -/
theorem C9_falsy_skips_format_checks :
    (∀ f : String, dateBeforeCheck f (.str "") = .ok (.str "")) ∧
    (∀ (libs : PyLibs) (f p : String),
      patternBeforeCheck libs f p (.str "") = .ok (.str "")) ∧
    (∀ libs : PyLibs,
      (perform_structural_validation libs [("d", .str "")]
        (create_model_from_schema dateOnlySchema)).fst.is_structurally_valid = true) ∧
    (∀ libs : PyLibs,
      (perform_structural_validation libs [("p", .str "")]
        (create_model_from_schema patternOnlySchema)).fst.is_structurally_valid = true) :=
  ⟨fun _ => rfl, fun _ _ _ => rfl, fun _ => rfl, fun _ => rfl⟩

/-- Claim C9, witness: instantiating the quantifiers at the concrete
library instance. -/
theorem C9_falsy_skips_format_checks_witness :
    dateBeforeCheck "d" (.str "") = .ok (.str "") ∧
    patternBeforeCheck trivialLibs "p" "^\\d{10}$" (.str "") = .ok (.str "") ∧
    (perform_structural_validation trivialLibs [("d", .str "")]
      (create_model_from_schema dateOnlySchema)).fst.is_structurally_valid = true ∧
    (perform_structural_validation trivialLibs [("p", .str "")]
      (create_model_from_schema patternOnlySchema)).fst.is_structurally_valid = true :=
  ⟨C9_falsy_skips_format_checks.1 "d",
   C9_falsy_skips_format_checks.2.1 trivialLibs "p" "^\\d{10}$",
   C9_falsy_skips_format_checks.2.2.1 trivialLibs,
   C9_falsy_skips_format_checks.2.2.2 trivialLibs⟩

/-- Claim C5: compiled numeric bounds are strict — an integer (or number)
value passes the range check iff `min < v < max` — and Scenario B:
`{"count": 20}` against `countSchema` is structurally invalid with exactly
one range error (a `less_than` error). -/
theorem C5_strict_numeric_bounds :
    (∀ m M v : ℤ, checkIntBounds (some m) (some M) v = none ↔ (m < v ∧ v < M)) ∧
    (∀ m M v : ℚ, checkFloatBounds (some m) (some M) v = none ↔ (m < v ∧ v < M)) ∧
    (∀ libs : PyLibs,
      (perform_structural_validation libs [("count", .int 20)]
        (create_model_from_schema countSchema)).fst = countFailResult) := by
  refine ⟨fun m M v => ?_, fun m M v => ?_, fun _ => rfl⟩
  · simp only [checkIntBounds, checkIntLt]
    split_ifs with h1 h2 <;> simp_all
  · simp only [checkFloatBounds, checkFloatLt]
    split_ifs with h1 h2 <;> simp_all

/-- Claim C5, witness: the range iff at `min = 1`, `max = 10`, `v = 5` and
`v = 20`, and the concrete Scenario B run. -/
theorem C5_strict_numeric_bounds_witness :
    checkIntBounds (some 1) (some 10) 5 = none ∧
    checkIntBounds (some 1) (some 10) 20 ≠ none ∧
    (perform_structural_validation trivialLibs [("count", .int 20)]
      (create_model_from_schema countSchema)).fst = countFailResult :=
  ⟨(C5_strict_numeric_bounds.1 1 10 5).mpr (by decide),
   fun h => by
     have := (C5_strict_numeric_bounds.1 1 10 20).mp h
     omega,
   C5_strict_numeric_bounds.2.2 trivialLibs⟩

/-- Claim C8: the structural validation runner returns the original record
unchanged as its second component whenever validation fails, and the
coerced/typed record (the successful `model_validate` dump) whenever
validation succeeds. -/
theorem C8_runner_frame (libs : PyLibs) (model : CompiledModel) (data : Record) :
    ((perform_structural_validation libs data model).fst.is_structurally_valid = false →
      (perform_structural_validation libs data model).snd = data) ∧
    ((perform_structural_validation libs data model).fst.is_structurally_valid = true →
      model_validate libs model data =
        .ok (perform_structural_validation libs data model).snd) := by
  unfold perform_structural_validation
  cases h : model_validate libs model data <;> simp

/-- Claim C8, witness: a failing run returns `{"count": 20}` untouched, and
a succeeding run returns the record with the numeric string `"5"` coerced
to the integer `5`. -/
theorem C8_runner_frame_witness :
    (perform_structural_validation trivialLibs [("count", .int 20)]
      (create_model_from_schema countSchema)).snd = [("count", .int 20)] ∧
    model_validate trivialLibs (create_model_from_schema countSchema)
        [("count", .str "5")] =
      .ok (perform_structural_validation trivialLibs [("count", .str "5")]
        (create_model_from_schema countSchema)).snd ∧
    (perform_structural_validation trivialLibs [("count", .str "5")]
      (create_model_from_schema countSchema)).snd = [("count", .int 5)] :=
  ⟨(C8_runner_frame trivialLibs (create_model_from_schema countSchema)
      [("count", .int 20)]).1 rfl,
   (C8_runner_frame trivialLibs (create_model_from_schema countSchema)
      [("count", .str "5")]).2 rfl,
   rfl⟩

/-- Claim C3: a remote call that times out yields exactly the fixed timeout
result — invalid, score `0.0`, one issue whose text contains "timed out" —
with no fall back to the heuristic and no exception (the orchestrator
returns `some` of the fixed result). -/
theorem C3_timeout_isolation (data : Record) (schema : Schema)
    (validation_type : String) (validation_level : ValidationLevel)
    (h1 : data ≠ []) (h2 : schema ≠ []) :
    perform_semantic_validation (.dict data) (.dict schema) validation_type
        validation_level (some .timeout) = some timeout_result ∧
    timeout_result.is_semantically_valid = false ∧
    timeout_result.semantic_score = 0 ∧
    timeout_result.issues = ["Validation timed out"] ∧
    containsSub "timed out".data "Validation timed out".data = true := by
  refine ⟨?_, rfl, rfl, rfl, by decide⟩
  simp [perform_semantic_validation, h1, h2]

/-- Claim C3, witness: the timeout outcome at a concrete nonempty data and
schema. -/
theorem C3_timeout_isolation_witness :
    perform_semantic_validation (.dict summaryShortData) (.dict summarySchema)
        "summary" .standard (some .timeout) = some timeout_result ∧
    timeout_result.issues = ["Validation timed out"] :=
  ⟨(C3_timeout_isolation summaryShortData summarySchema "summary" .standard
      (by simp [summaryShortData]) (by simp [summarySchema])).1,
   (C3_timeout_isolation summaryShortData summarySchema "summary" .standard
      (by simp [summaryShortData]) (by simp [summarySchema])).2.2.2.1⟩

/-- Claim C1, counterexample: with nonempty data and schema and an agent
whose call raises a non-timeout exception, the orchestrator does not return
the heuristic result — it returns the permissive `default_result` while
the heuristic on the same inputs reports the too-short summary. -/
theorem C1_counterexample_default_not_heuristic :
    perform_semantic_validation (.dict summaryShortData) (.dict summarySchema)
        "summary" .standard (some (.failure "boom")) ≠
      basic_semantic_validation "summary" .standard summaryShortData
        summarySchema none := by
  intro h
  have h' := congrArg (fun o =>
    o.map (fun r : SemanticValidationResult => r.issues)) h
  exact absurd h' (by decide)

/-- Claim C1, amended: on a response of the wrong shape and on any
non-timeout remote-call exception, the orchestrator returns the fixed
permissive `default_result` (valid, score `1.0`, no issues); the Heuristic
Semantic Validator is consulted only when no agent handle is available. -/
theorem C1_amended_default_on_remote_failure (data : Record) (schema : Schema)
    (validation_type : String) (validation_level : ValidationLevel) (msg : String)
    (h1 : data ≠ []) (h2 : schema ≠ []) :
    perform_semantic_validation (.dict data) (.dict schema) validation_type
        validation_level (some .wrongType) = some default_result ∧
    perform_semantic_validation (.dict data) (.dict schema) validation_type
        validation_level (some (.failure msg)) = some default_result ∧
    perform_semantic_validation (.dict data) (.dict schema) validation_type
        validation_level none =
      basic_semantic_validation validation_type validation_level data schema none := by
  refine ⟨?_, ?_, ?_⟩ <;> simp [perform_semantic_validation, h1, h2]

/-- Claim C1, witness for the amended statement: wrong-shape and failing
outcomes both produce `default_result` at a concrete input. -/
theorem C1_amended_witness :
    perform_semantic_validation (.dict summaryShortData) (.dict summarySchema)
        "summary" .standard (some .wrongType) = some default_result ∧
    perform_semantic_validation (.dict summaryShortData) (.dict summarySchema)
        "summary" .standard (some (.failure "boom")) = some default_result :=
  ⟨(C1_amended_default_on_remote_failure summaryShortData summarySchema
      "summary" .standard "boom" (by simp [summaryShortData])
      (by simp [summarySchema])).1,
   (C1_amended_default_on_remote_failure summaryShortData summarySchema
      "summary" .standard "boom" (by simp [summaryShortData])
      (by simp [summarySchema])).2.1⟩

/-- Claim C2, counterexample: a `strict`-level request whose data fails
structural validation (Scenario B's `{"count": 20}`) still gets an invalid
verdict with `semantic_validation` absent from the `/validate` endpoint —
the claimed escalation does not happen there. -/
theorem C2_counterexample_strict_no_escalation :
    (validate_ai_output .strict
        (perform_structural_validation trivialLibs [("count", .int 20)]
          (create_model_from_schema countSchema)).fst
        (.error "unexpected keyword argument")).semantic_validation = none ∧
    (validate_ai_output .strict
        (perform_structural_validation trivialLibs [("count", .int 20)]
          (create_model_from_schema countSchema)).fst
        (.error "unexpected keyword argument")).is_valid = false ∧
    (perform_structural_validation trivialLibs [("count", .int 20)]
        (create_model_from_schema countSchema)).fst.is_structurally_valid = false :=
  ⟨rfl, rfl, rfl⟩

/-- Claim C2, amended: in the `/validate` endpoint every level — `strict`
included — yields an invalid verdict with `semantic_validation` absent when
structural validation fails; the strict escalation exists only in
`ai_agent.enhance_validation`, whose semantic phase (given a configured API
key) is present in the response iff the standard status is `"valid"` or the
level is `STRICT`. -/
theorem C2_amended_escalation_only_in_enhance :
    (∀ (level : ValidationLevel) (sr : StructuralValidationResult)
        (semCall : Except String SemanticValidationResult),
      sr.is_structurally_valid = false →
        (validate_ai_output level sr semCall).semantic_validation = none ∧
        (validate_ai_output level sr semCall).is_valid = false) ∧
    (∀ (status : Option String) (level : AgentValidationLevel)
        (sem : SemanticValidationResult),
      (enhance_validation true status level sem).isSome =
        (status = some "valid" || level = .strict)) ∧
    (∀ (status : Option String) (sem : SemanticValidationResult),
      enhance_validation true status .strict sem = some sem) := by
  refine ⟨fun level sr semCall h => ?_, fun status level sem => ?_,
    fun status sem => ?_⟩
  · simp [validate_ai_output, h]
  · simp only [enhance_validation, Bool.not_true, Bool.false_eq_true,
      if_false]
    split_ifs with hc
    · simp [hc]
    · simp [Bool.not_eq_true] at hc
      simp [hc]
  · simp [enhance_validation]

/-- Claim C2, witness for the amended statement: the strict early return on
a concrete invalid structural result, and the enhance-side escalation at a
concrete non-valid status. -/
theorem C2_amended_witness :
    ((validate_ai_output .strict invalidSR (.error "e")).semantic_validation = none ∧
     (validate_ai_output .strict invalidSR (.error "e")).is_valid = false) ∧
    (enhance_validation true (some "invalid") .strict default_result).isSome =
      ((some "invalid" : Option String) = some "valid" ||
        AgentValidationLevel.strict = AgentValidationLevel.strict) ∧
    enhance_validation true (some "invalid") .strict default_result =
      some default_result :=
  ⟨C2_amended_escalation_only_in_enhance.1 .strict invalidSR (.error "e") rfl,
   C2_amended_escalation_only_in_enhance.2.1 (some "invalid") .strict default_result,
   C2_amended_escalation_only_in_enhance.2.2 (some "invalid") default_result⟩

/-- Claim C4: with `level = structure_only` the endpoint mirrors the
structural result and `semantic_validation` is absent; with any other
level, when the semantic phase is attempted (structural passed), the
response carries a semantic result and the final `is_valid` is the
conjunction of the two phases. -/
theorem C4_aggregation (sr : StructuralValidationResult)
    (semCall : Except String SemanticValidationResult) :
    ((validate_ai_output .structure_only sr semCall).semantic_validation = none ∧
     (validate_ai_output .structure_only sr semCall).is_valid =
       sr.is_structurally_valid) ∧
    (∀ level : ValidationLevel, level ≠ .structure_only →
      sr.is_structurally_valid = true →
      ∃ sem, (validate_ai_output level sr semCall).semantic_validation = some sem ∧
        (validate_ai_output level sr semCall).is_valid =
          (sr.is_structurally_valid && sem.is_semantically_valid)) := by
  constructor
  · cases h : sr.is_structurally_valid <;> simp [validate_ai_output, h]
  · intro level hlevel hvalid
    cases semCall with
    | ok sem =>
      exact ⟨sem, by simp [validate_ai_output, hvalid, hlevel]⟩
    | error msg =>
      refine ⟨semantic_error_result msg, ?_⟩
      simp [validate_ai_output, hvalid, hlevel, semantic_error_result]

/-- Claim C4, witness: the structure-only mirror and the conjunction shape
at concrete inputs. -/
theorem C4_aggregation_witness :
    ((validate_ai_output .structure_only validSR (.ok default_result)).semantic_validation = none ∧
     (validate_ai_output .structure_only validSR (.ok default_result)).is_valid =
       validSR.is_structurally_valid) ∧
    (∃ sem, (validate_ai_output .standard validSR (.ok timeout_result)).semantic_validation = some sem ∧
      (validate_ai_output .standard validSR (.ok timeout_result)).is_valid =
        (validSR.is_structurally_valid && sem.is_semantically_valid)) :=
  ⟨(C4_aggregation validSR (.ok default_result)).1,
   (C4_aggregation validSR (.ok timeout_result)).2 .standard (by decide) rfl⟩

/-- Claim C7: whenever the Heuristic Semantic Validator runs with no
structural errors and returns a result, its score is `1.0` iff its issue
list is empty and otherwise equals `max(0, 1 - 0.1 * issue_count)` (it is
exactly `scoreOfCount issue_count`, a non-increasing function of the issue
count), and validity holds iff the issue count is zero. -/
theorem C7_heuristic_score_shape (validation_type : String)
    (validation_level : ValidationLevel) (data : Record) (schema : Schema)
    (r : SemanticValidationResult)
    (h : basic_semantic_validation validation_type validation_level data schema
      none = some r) :
    (r.semantic_score = 1 ↔ r.issues = []) ∧
    r.semantic_score = scoreOfCount r.issues.length ∧
    (r.is_semantically_valid = true ↔ r.issues = []) ∧
    (∀ a b : ℕ, a ≤ b → scoreOfCount b ≤ scoreOfCount a) := by
  unfold basic_semantic_validation at h
  simp only [structuralErrorsNonempty, Bool.false_eq_true, if_false] at h
  cases hq : qualityIssues validation_type data with
  | none => rw [hq] at h; exact absurd h (by simp)
  | some quality =>
    rw [hq] at h
    injection h with h
    subst h
    refine ⟨?_, rfl, ?_, fun a b hab => scoreOfCount_antitone hab⟩
    · rw [scoreOfCount_eq_one_iff]
      exact List.length_eq_zero
    · simp [List.isEmpty_iff]

/-- Claim C7, witness: the heuristic on `{"summary": "short"}` with
`validation_type = "summary"` returns the one-issue result, and the claim's
score/validity shape holds of it. -/
theorem C7_heuristic_score_shape_witness :
    basic_semantic_validation "summary" .standard summaryShortData summarySchema
        none = some summaryShortResult ∧
    ((summaryShortResult.semantic_score = 1 ↔ summaryShortResult.issues = []) ∧
     summaryShortResult.semantic_score = scoreOfCount summaryShortResult.issues.length ∧
     (summaryShortResult.is_semantically_valid = true ↔ summaryShortResult.issues = []) ∧
     (∀ a b : ℕ, a ≤ b → scoreOfCount b ≤ scoreOfCount a)) :=
  ⟨rfl,
   C7_heuristic_score_shape "summary" .standard summaryShortData summarySchema
     summaryShortResult rfl⟩

/-- Claim C10: the keyboard-pattern blocklist contains the two-letter
substring `nm` and is checked by plain containment on the lowercased value,
so every all-letter name whose lowercase form contains `nm` anywhere is
rejected with a keyboard-pattern error. -/
theorem C10_nm_rejects_letter_names (s : String)
    (h0 : s.data ≠ [])
    (hletters : ∀ c ∈ s.data, c.isAlpha = true)
    (hnm : containsSub ['n', 'm'] (s.data.map Char.toLower) = true) :
    validate_name_content s = .error .keyboard_pattern := by
  have hspace : ∀ c ∈ s.data, isPySpace c = false :=
    fun c hc => isAlpha_not_pySpace (hletters c hc)
  have hstrip : stripChars s.data = s.data := stripChars_of_all_not hspace
  have hne : ¬(s = "") := by
    intro h
    rw [h] at h0
    exact h0 rfl
  have hlen : 2 ≤ s.data.length := by
    have h2 := containsSub_length hnm
    simpa using h2
  have c1 : (decide (s = "") || decide ((stripChars s.data).length < 2)) = false := by
    rw [hstrip]
    simp only [Bool.or_eq_false_iff, decide_eq_false_iff_not]
    exact ⟨hne, by omega⟩
  have c2 : s.data.all isNameChar = true := by
    rw [List.all_eq_true]
    exact fun c hc => isAlpha_nameChar (hletters c hc)
  have c3 : keyboard_patterns.any
      (fun p => containsSub p.data (s.data.map Char.toLower)) = true := by
    rw [List.any_eq_true]
    exact ⟨"nm", by decide, hnm⟩
  simp only [validate_name_content, c1, c2, Bool.not_true, Bool.false_eq_true,
    if_false, c3, if_true]

/-- Claim C10, witness: `"Tanmay"` — letters only, lowercase contains
`nm` — is rejected with the keyboard-pattern error. -/
theorem C10_nm_rejects_letter_names_witness :
    validate_name_content "Tanmay" = .error .keyboard_pattern :=
  C10_nm_rejects_letter_names "Tanmay" (by decide) (by decide) (by decide)

end AIOVS
